import Mathlib

/-!
Shallow embedding of the `cdk-portal-wallet` fake Lightning backend
(`src/crates/cdk-portal-wallet/src/lib.rs`) and of the supported-units
environment parsing (`src/crates/cdk-mintd/src/env_vars/portal_wallet.rs`),
together with theorems settling the specification claims.

Async methods are embedded as pure state-passing functions; the tokio mpsc
channel, the cancellation token and the atomic flag become explicit fields of
the wallet state.  Types that live outside the excerpt (the cdk crate's
`MeltQuoteState`, `MintQuoteState`, `CurrencyUnit`, the payment error enum and
the `lightning_invoice` codec) are modelled from the spec, as marked on each
definition.
-/

deriving instance DecidableEq for Except

namespace PortalWalletSpec

/-- Modelled from the spec: settlement states of an outgoing payment
(`MeltQuoteState` is declared in the cdk crate, not under the excerpt); the
spec lists Unpaid, Pending, Paid, Failed. -/
inductive MeltQuoteState where
  | unpaid
  | pending
  | paid
  | failed
deriving DecidableEq, Repr

/-- Modelled from the spec: settlement states of an incoming payment
(`MintQuoteState` is declared in the cdk crate, not under the excerpt); the
reference backend only ever reports Paid. -/
inductive MintQuoteState where
  | unpaid
  | paid
  | issued
deriving DecidableEq, Repr

/-- Modelled from the spec: a currency unit symbol (`CurrencyUnit` is declared
in the cdk crate, not under the excerpt); the spec's scenarios use the symbols
USD and EUR, with sat/msat as native units. -/
inductive CurrencyUnit where
  | sat
  | msat
  | usd
  | eur
  | custom (s : String)
deriving DecidableEq, Repr

/-- Modelled from the spec: the error taxonomy surfaced to callers
(`error.rs` and `cdk_payment::Error` are not under the excerpt); the spec
names NoReceiver, InvalidInvoice, InvoicePaymentPending and serialization
failures. -/
inductive PaymentError where
  | noReceiver
  | invalidInvoice
  | invoicePaymentPending
  | serde
deriving DecidableEq, Repr

/-- Association-list lookup, first match wins; embeds `HashMap::get`. -/
def mapGet {α β : Type} [DecidableEq α] : List (α × β) → α → Option β
  | [], _ => none
  | (k, v) :: rest, k2 => if k = k2 then some v else mapGet rest k2

/-- Association-list insert that overwrites any earlier binding of the key;
embeds `HashMap::insert`. -/
def mapInsert {α β : Type} [DecidableEq α] (m : List (α × β)) (k : α) (v : β) :
    List (α × β) :=
  (k, v) :: m.filter (fun p => !(decide (p.1 = k)))

/-- The bounded mpsc channel created by `tokio::sync::mpsc::channel(8)` in
`PortalWallet::new`.  `senders_closed` means every Sender handle has been
dropped (then a drained receiver terminates); `receiver_closed` means the
Receiver was dropped (then sends fail). -/
structure Channel where
  queue : List String
  senders_closed : Bool
  receiver_closed : Bool
deriving DecidableEq, Repr

/-- Capacity passed to `tokio::sync::mpsc::channel` in `PortalWallet::new`. -/
def channelCapacity : Nat := 8

/-- Outcome of a completed `Sender::send`: delivered into the buffer, or
failed because the receiver was dropped. -/
inductive SendOutcome where
  | delivered
  | closedErr
deriving DecidableEq, Repr

/-- `Sender::send(msg).await` on the bounded channel: fails at once when the
receiver has been dropped (the message is lost and the caller sees an Err),
enqueues and completes when the buffer is below capacity, and on a full
buffer suspends awaiting capacity — `none`: the await does not complete in
this state, and the message is neither dropped nor enqueued yet. -/
def Channel.send (c : Channel) (msg : String) :
    Option (SendOutcome × Channel) :=
  if c.receiver_closed then some (.closedErr, c)
  else if c.queue.length < channelCapacity then
    some (.delivered, { c with queue := c.queue ++ [msg] })
  else none

/-- State of the `PortalWallet` struct (`src/crates/cdk-portal-wallet/src/lib.rs`,
lines 41-49): the mpsc channel, whether the receiver has been taken out of the
`Mutex<Option<Receiver>>`, the settlement-state map, the fault set, the
cancellation token (a flag once cancelled), the `wait_invoice_is_active`
atomic flag, and the supported-units map. -/
structure PortalWallet where
  channel : Channel
  receiver_taken : Bool
  payment_states : List (String × MeltQuoteState)
  failed_payment_check : List String
  wait_invoice_cancel_token : Bool
  wait_invoice_is_active : Bool
  supported_units : List (CurrencyUnit × Nat)
deriving DecidableEq, Repr

/-- `PortalWallet::new`: fresh channel of capacity 8, receiver present,
given state map and fault set, fresh (uncancelled) token, active flag false,
empty supported-units map. -/
def PortalWallet.new (payment_states : List (String × MeltQuoteState))
    (fail_payment_check : List String) : PortalWallet :=
  { channel := { queue := [], senders_closed := false, receiver_closed := false }
    receiver_taken := false
    payment_states := payment_states
    failed_payment_check := fail_payment_check
    wait_invoice_cancel_token := false
    wait_invoice_is_active := false
    supported_units := [] }

/-- `PortalWallet::add_supported_unit`: inserts (overwriting) into the
supported-units map.  `max_order` is a `u8` in the source; values here are
the corresponding naturals below 256. -/
def PortalWallet.add_supported_unit (w : PortalWallet) (unit : CurrencyUnit)
    (max_order : Nat) : PortalWallet :=
  { w with supported_units := mapInsert w.supported_units unit max_order }

/-- `is_wait_invoice_active`: loads the atomic flag. -/
def PortalWallet.is_wait_invoice_active (w : PortalWallet) : Bool :=
  w.wait_invoice_is_active

/-- `cancel_wait_invoice`: cancels the token.  Nothing in the source ever
reads this token back. -/
def PortalWallet.cancel_wait_invoice (w : PortalWallet) : PortalWallet :=
  { w with wait_invoice_cancel_token := true }

/-- `wait_any_incoming_payment`: takes the receiver out of the mutexed Option;
if it was already taken, fails with `NoReceiver`.  The source does not store
`true` into `wait_invoice_is_active` and does not involve the cancel token. -/
def PortalWallet.wait_any_incoming_payment (w : PortalWallet) :
    Except PaymentError PortalWallet :=
  if w.receiver_taken then .error .noReceiver
  else .ok { w with receiver_taken := true }

/-- One poll of the consumer side of the `ReceiverStream` returned by
`wait_any_incoming_payment`: yields the next queued lookup-id, terminates when
all senders are gone and the buffer is drained, otherwise suspends.  The
stream is `ReceiverStream::new(receiver).map(|label| label)`: it is built from
the receiver alone and takes no notice of `wait_invoice_cancel_token`. -/
inductive StreamStep where
  | yield (id : String) (rest : Channel)
  | terminated
  | suspended
deriving DecidableEq, Repr

/-- Poll function for the receiver stream (see `StreamStep`). -/
def receiverStreamNext (c : Channel) : StreamStep :=
  match c.queue with
  | id :: rest => .yield id { c with queue := rest }
  | [] => if c.senders_closed then .terminated else .suspended

/-- `check_incoming_payment_status`: the source ignores its argument and the
wallet state and returns `Ok(MintQuoteState::Paid)`. -/
def PortalWallet.check_incoming_payment_status (_w : PortalWallet)
    (_request_lookup_id : String) : Except PaymentError MintQuoteState :=
  .ok .paid

/-- Receipt returned by `make_payment` / `check_outgoing_payment`
(`MakePaymentResponse`); `total_spent` is an Amount, embedded as a natural. -/
structure MakePaymentResponse where
  payment_proof : Option String
  payment_lookup_id : String
  status : MeltQuoteState
  total_spent : Nat
  unit : CurrencyUnit
deriving DecidableEq, Repr

/-- `check_outgoing_payment`: reads the stored state (default Paid when
absent), then fails with `InvoicePaymentPending` if the lookup-id is in the
fault set, else returns a receipt with the stored state, empty proof, zero
total spent and unit Msat. -/
def PortalWallet.check_outgoing_payment (w : PortalWallet)
    (request_lookup_id : String) : Except PaymentError MakePaymentResponse :=
  let status := (mapGet w.payment_states request_lookup_id).getD .paid
  if request_lookup_id ∈ w.failed_payment_check then
    .error .invoicePaymentPending
  else
    .ok { payment_proof := some ""
          payment_lookup_id := request_lookup_id
          status := status
          total_spent := 0
          unit := .msat }

/-- `max_order`: the registered value for the unit, or the fallback 32. -/
def PortalWallet.max_order (w : PortalWallet) (unit : CurrencyUnit) : Nat :=
  (mapGet w.supported_units unit).getD 32

/-- A Bolt11 invoice as the record of fields the codec embeds (spec section 3,
PaymentRequest): amount in millisatoshis (optional for amountless invoices),
description, 32-byte payment hash and payment secret, issuance timestamp,
expiry offset and minimum final settlement delay. -/
structure Bolt11Invoice where
  amount_msat : Option Nat
  description : String
  payment_hash : List Nat
  payment_secret : List Nat
  timestamp : Nat
  expiry_secs : Nat
  min_final_cltv_expiry_delta : Nat
deriving DecidableEq, Repr

/-- Modelled from the spec: the externally standardized invoice text format
(the `lightning_invoice` crate is outside this repository).  A request string
is either the well-formed encoding of an invoice or malformed; per the spec,
decoding recovers the embedded fields from a well-formed string and fails with
`InvalidInvoice` on malformed input. -/
inductive RequestString where
  | encoded (inv : Bolt11Invoice)
  | malformed (s : String)
deriving DecidableEq, Repr

/-- Modelled from the spec: `Bolt11Invoice::to_string`, the encoding half of
the external codec. -/
def Bolt11Invoice.render (inv : Bolt11Invoice) : RequestString :=
  .encoded inv

/-- Modelled from the spec: `Bolt11Invoice::from_str`, the decoding half of
the external codec; malformed input fails with `InvalidInvoice`. -/
def Bolt11Invoice.from_str : RequestString → Except PaymentError Bolt11Invoice
  | .encoded inv => .ok inv
  | .malformed _ => .error .invalidInvoice

/-- `expires_at` of the invoice: issuance time plus expiry offset, in secs. -/
def Bolt11Invoice.expires_at (inv : Bolt11Invoice) : Option Nat :=
  some (inv.timestamp + inv.expiry_secs)

/-- Lower-case hex digit for a value below 16. -/
def hexDigit (n : Nat) : Char :=
  if n < 10 then Char.ofNat (48 + n) else Char.ofNat (87 + n)

/-- Two-digit lower-case hex rendering of one byte. -/
def byteToHex (b : Nat) : String :=
  String.mk [hexDigit (b / 16 % 16), hexDigit (b % 16)]

/-- `payment_hash.to_string()`: the hash bytes rendered as fixed-length hex,
the Lookup-Id of the payment. -/
def hashToString (bytes : List Nat) : String :=
  String.join (bytes.map byteToHex)

/-- `create_fake_invoice` (`lib.rs` lines 243-269): builds a signed invoice
with the given amount in msat and description, a payment hash obtained by
hashing 32 fresh random bytes (the hash is passed here as the environmental
input `payment_hash`, and the current time as `now`), the fixed payment
secret `[42u8; 32]` and `min_final_cltv_expiry_delta` 144; no explicit expiry
is set, so the codec default of 3600 seconds applies. -/
def create_fake_invoice (amount_msat : Nat) (description : String)
    (payment_hash : List Nat) (now : Nat) : Bolt11Invoice :=
  { amount_msat := some amount_msat
    description := description
    payment_hash := payment_hash
    payment_secret := List.replicate 32 42
    timestamp := now
    expiry_secs := 3600
    min_final_cltv_expiry_delta := 144 }

/-- Response of `create_incoming_payment_request`
(`CreateIncomingPaymentResponse` in the cdk payment contract). -/
structure CreateIncomingPaymentResponse where
  request_lookup_id : String
  request : RequestString
  expiry : Option Nat
deriving DecidableEq, Repr

/-- `create_incoming_payment_request` (`lib.rs` lines 174-199): builds a fake
invoice from the amount (taken as msat whatever the unit) and description,
publishes the hex payment hash on the channel with `sender.send(...).await` —
a send error is only logged, but an await that finds the bounded buffer full
suspends, so the call completes (`some`) only when the send does — and
returns the lookup-id, the rendered request and its expiry.  The fresh
randomness and clock reading inside `create_fake_invoice` are the explicit
inputs `payment_hash` and `now`. -/
def PortalWallet.create_incoming_payment_request (w : PortalWallet)
    (amount : Nat) (_unit : CurrencyUnit) (description : String)
    (_unix_expiry : Option Nat) (payment_hash : List Nat) (now : Nat) :
    Option (Except PaymentError (CreateIncomingPaymentResponse × PortalWallet)) :=
  let amount_msat := amount
  let invoice := create_fake_invoice amount_msat description payment_hash now
  let label := hashToString invoice.payment_hash
  match w.channel.send label with
  | none => none
  | some sent =>
    some (.ok ({ request_lookup_id := label
                 request := invoice.render
                 expiry := invoice.expires_at }, { w with channel := sent.2 }))

/-- A parsed `unit:max_order` pair
(`SupportedUnit` in `env_vars/portal_wallet.rs`). -/
structure SupportedUnit where
  unit : CurrencyUnit
  max_order : Nat
deriving DecidableEq, Repr

/-- In the configuration loader a Rust `str` is embedded as its character
list, so that the split/trim/parse pipeline stays structurally computable.
`str::split(sep)`: Rust semantics, an empty input gives one empty piece and a
trailing separator a trailing empty piece. -/
def splitChar (sep : Char) : List Char → List (List Char)
  | [] => [[]]
  | x :: xs =>
    let rest := splitChar sep xs
    if x = sep then [] :: rest
    else
      match rest with
      | [] => [[x]]
      | h :: t => (x :: h) :: t

/-- `str::split_once(sep)`: the pieces before and after the first occurrence
of the separator, `none` when it does not occur. -/
def splitOnceChar (sep : Char) : List Char → Option (List Char × List Char)
  | [] => none
  | x :: xs =>
    if x = sep then some ([], xs)
    else
      match splitOnceChar sep xs with
      | none => none
      | some (a, b) => some (x :: a, b)

/-- `str::trim`: whitespace stripped from both ends. -/
def trimChars (l : List Char) : List Char :=
  ((l.dropWhile Char.isWhitespace).reverse.dropWhile Char.isWhitespace).reverse

/-- ASCII lower-casing of one character's code, for case-insensitive symbol
comparison. -/
def charLowerCode (c : Char) : Nat :=
  if 65 ≤ c.toNat ∧ c.toNat ≤ 90 then c.toNat + 32 else c.toNat

/-- The case-folded codes of a symbol. -/
def lowerCodes (s : List Char) : List Nat :=
  s.map charLowerCode

/-- Modelled from the spec: `CurrencyUnit::from_str` (declared in the cdk
crate, not under the excerpt) parses a unit symbol case-insensitively; the
spec's configuration examples use USD and EUR alongside the native sat/msat
units, and an unparsable symbol yields an error. -/
def currencyUnitFromStr (s : List Char) : Except String CurrencyUnit :=
  let u := lowerCodes s
  if u = lowerCodes "sat".data then .ok .sat
  else if u = lowerCodes "msat".data then .ok .msat
  else if u = lowerCodes "usd".data then .ok .usd
  else if u = lowerCodes "eur".data then .ok .eur
  else .error "Invalid unit"

/-- `u8::from_str`: decimal digits only, value below 256. -/
def parseU8 (s : List Char) : Except String Nat :=
  if s ≠ [] ∧ s.all Char.isDigit then
    let n := s.foldl (fun acc c => acc * 10 + (c.toNat - 48)) 0
    if n < 256 then .ok n else .error "Invalid max order"
  else .error "Invalid max order"

/-- `SupportedUnit::from_str` (`env_vars/portal_wallet.rs` lines 18-28):
split at the first colon (else "Invalid format"), parse the unit (else
"Invalid unit") and the max order as u8 (else "Invalid max order"). -/
def SupportedUnit.from_str (s : List Char) : Except String SupportedUnit :=
  match splitOnceChar ':' s with
  | none => .error "Invalid format"
  | some (unit, max_order) =>
    match currencyUnitFromStr unit with
    | .error _ => .error "Invalid unit"
    | .ok u =>
      match parseU8 max_order with
      | .error _ => .error "Invalid max order"
      | .ok m => .ok { unit := u, max_order := m }

/-- `collect::<Result<Vec<_>, _>>`: first error wins, else the list of oks. -/
def collectResults {ε α : Type} : List (Except ε α) → Except ε (List α)
  | [] => .ok []
  | x :: xs =>
    match x with
    | .error e => .error e
    | .ok a =>
      match collectResults xs with
      | .error e => .error e
      | .ok rest => .ok (a :: rest)

/-- Boolean success test for `Except`. -/
def exceptIsOk {ε α : Type} : Except ε α → Bool
  | .ok _ => true
  | .error _ => false

/-- Modelled from the spec: the mintd `PortalWallet` configuration section
(declared in cdk-mintd's config module, not under the excerpt); the only field
the environment loader touches is `supported_units`. -/
structure PortalWalletConfig where
  supported_units : List (CurrencyUnit × Nat)
deriving DecidableEq, Repr

/-- `PortalWallet::from_env` (`env_vars/portal_wallet.rs` lines 30-45): when
the environment variable is set, split on commas, trim and parse each pair,
and replace `supported_units` only if every pair parsed; any failure leaves
the previous configuration unchanged.  The environment read is the explicit
input `envVal`. -/
def PortalWalletConfig.from_env (cfg : PortalWalletConfig)
    (envVal : Option (List Char)) : PortalWalletConfig :=
  match envVal with
  | none => cfg
  | some units_str =>
    match collectResults ((splitChar ',' units_str).map
        (fun s => SupportedUnit.from_str (trimChars s))) with
    | .error _ => cfg
    | .ok units =>
      { cfg with supported_units := units.map (fun u => (u.unit, u.max_order)) }

/-- A wallet whose notification buffer already holds its capacity of 8
lookup-ids while the receiver is still parked in the mutex: no consumer is
attached, so nothing ever drains the buffer. -/
def fullBufferWallet : PortalWallet :=
  { PortalWallet.new [] [] with
    channel := { queue := ["m1", "m2", "m3", "m4", "m5", "m6", "m7", "m8"]
                 senders_closed := false
                 receiver_closed := false } }

/-- Filtering out one key leaves lookups of any other key unchanged. -/
theorem mapGet_filter_of_ne {α β : Type} [DecidableEq α]
    (l : List (α × β)) (u u2 : α) (hne : u2 ≠ u) :
    mapGet (l.filter (fun p => !(decide (p.1 = u)))) u2 = mapGet l u2 := by
  induction l with
  | nil => rfl
  | cons p rest ih =>
    obtain ⟨k, v⟩ := p
    by_cases hp : k = u
    · simp [List.filter, hp, mapGet, Ne.symm hne, ih]
    · simp [List.filter, hp, mapGet, ih]

/-- If one element of the list fails to parse, collecting the results fails. -/
theorem collectResults_error_of_mem {ε α β : Type} (f : β → Except ε α)
    (l : List β) (x : β) (hx : x ∈ l)
    (hbad : exceptIsOk (f x) = false) :
    ∃ e, collectResults (l.map f) = .error e := by
  induction l with
  | nil => cases hx
  | cons a as ih =>
    cases hfa : f a with
    | error e => exact ⟨e, by simp [collectResults, hfa]⟩
    | ok v =>
      rcases List.mem_cons.mp hx with h1 | h2
      · rw [h1, hfa] at hbad
        simp [exceptIsOk] at hbad
      · rcases ih h2 with ⟨e, he⟩
        exact ⟨e, by simp [collectResults, hfa, he]⟩

/-- Unfolding lemma: `create_incoming_payment_request` is the publish on the
channel followed by the response built from the fake invoice. -/
theorem create_incoming_payment_request_eq (w : PortalWallet)
    (A : Nat) (unit : CurrencyUnit) (D : String) (e : Option Nat)
    (ph : List Nat) (now : Nat) :
    w.create_incoming_payment_request A unit D e ph now =
      match w.channel.send (hashToString ph) with
      | none => none
      | some sent =>
        some (.ok ({ request_lookup_id := hashToString ph
                     request := (create_fake_invoice A D ph now).render
                     expiry := (create_fake_invoice A D ph now).expires_at },
                   { w with channel := sent.2 })) :=
  rfl

/-- C1: for every amount A and description D (and every fresh payment hash
and clock reading), whenever `create_incoming_payment_request` completes it
succeeds with a request string that decodes to an invoice whose amount is A
millisatoshis and whose description is D; and it does complete whenever the
notification buffer is below capacity (in particular on a fresh wallet). -/
theorem create_incoming_payment_request_decodes
    (w : PortalWallet) (A : Nat) (unit : CurrencyUnit) (D : String)
    (e : Option Nat) (ph : List Nat) (now : Nat) :
    (∀ r, w.create_incoming_payment_request A unit D e ph now = some r →
      ∃ resp w2, r = .ok (resp, w2) ∧
        ∃ inv, Bolt11Invoice.from_str resp.request = .ok inv ∧
          inv.amount_msat = some A ∧ inv.description = D) ∧
    (w.channel.queue.length < channelCapacity →
      w.create_incoming_payment_request A unit D e ph now ≠ none) := by
  constructor
  · intro r hr
    rw [create_incoming_payment_request_eq] at hr
    cases hs : w.channel.send (hashToString ph) with
    | none => rw [hs] at hr; cases hr
    | some sent =>
      rw [hs] at hr
      have h2 := Option.some.inj hr
      subst h2
      exact ⟨_, _, rfl, _, rfl, rfl, rfl⟩
  · intro hlt hnone
    rw [create_incoming_payment_request_eq] at hnone
    unfold Channel.send at hnone
    by_cases h1 : w.channel.receiver_closed
    · simp [h1] at hnone
    · simp [h1, hlt] at hnone

/-- C2: for every lookup-id in the fault set, `check_outgoing_payment` fails
with `InvoicePaymentPending`, whatever the settlement-state map holds. -/
theorem check_outgoing_payment_fault_pending (w : PortalWallet) (id : String)
    (h : id ∈ w.failed_payment_check) :
    w.check_outgoing_payment id = .error .invoicePaymentPending := by
  unfold PortalWallet.check_outgoing_payment
  simp [h]

/-- Witness for C2: the fault set contains "aa", the state map even says
Unpaid for it, and the check fails with the pending error. -/
theorem check_outgoing_payment_fault_pending_witness :
    "aa" ∈ (PortalWallet.new [("aa", .unpaid)] ["aa"]).failed_payment_check ∧
    (PortalWallet.new [("aa", .unpaid)] ["aa"]).check_outgoing_payment "aa" =
      .error .invoicePaymentPending :=
  ⟨by decide,
   check_outgoing_payment_fault_pending (PortalWallet.new [("aa", .unpaid)] ["aa"])
     "aa" (by decide)⟩

/-- C3: for every lookup-id outside the fault set with no settlement-state
entry, `check_outgoing_payment` returns a receipt with status Paid and zero
total spent. -/
theorem check_outgoing_payment_default_paid (w : PortalWallet) (id : String)
    (h1 : id ∉ w.failed_payment_check)
    (h2 : mapGet w.payment_states id = none) :
    w.check_outgoing_payment id =
      .ok { payment_proof := some "", payment_lookup_id := id,
            status := .paid, total_spent := 0, unit := .msat } := by
  unfold PortalWallet.check_outgoing_payment
  simp [h1, h2]

/-- Witness for C3: a lookup-id never seeded anywhere yields a Paid receipt
with zero spent. -/
theorem check_outgoing_payment_default_paid_witness :
    "bb" ∉ (PortalWallet.new [] ["aa"]).failed_payment_check ∧
    mapGet (PortalWallet.new [] ["aa"]).payment_states "bb" = none ∧
    (PortalWallet.new [] ["aa"]).check_outgoing_payment "bb" =
      .ok { payment_proof := some "", payment_lookup_id := "bb",
            status := .paid, total_spent := 0, unit := .msat } :=
  ⟨by decide, rfl,
   check_outgoing_payment_default_paid (PortalWallet.new [] ["aa"]) "bb"
     (by decide) rfl⟩

/-- C4: once a `wait_any_incoming_payment` call has succeeded and the
consumer remains attached (the receiver stays taken), any further call fails
with `NoReceiver`. -/
theorem wait_any_incoming_payment_single_consumer
    (w w1 w2 : PortalWallet)
    (h : w.wait_any_incoming_payment = .ok w1)
    (hattached : w2.receiver_taken = w1.receiver_taken) :
    w2.wait_any_incoming_payment = .error .noReceiver := by
  unfold PortalWallet.wait_any_incoming_payment at h ⊢
  by_cases hw : w.receiver_taken
  · simp [hw] at h
  · simp [hw] at h
    have ht : w2.receiver_taken = true := by
      rw [hattached, ← h]
    simp [ht]

/-- Witness for C4: on a fresh wallet the first wait succeeds and the very
next wait on the resulting state fails with `NoReceiver`. -/
theorem wait_any_incoming_payment_single_consumer_witness :
    (PortalWallet.new [] []).wait_any_incoming_payment =
      .ok { PortalWallet.new [] [] with receiver_taken := true } ∧
    ({ PortalWallet.new [] [] with receiver_taken := true } :
        PortalWallet).wait_any_incoming_payment = .error .noReceiver :=
  ⟨rfl,
   wait_any_incoming_payment_single_consumer (PortalWallet.new [] [])
     { PortalWallet.new [] [] with receiver_taken := true }
     { PortalWallet.new [] [] with receiver_taken := true } rfl rfl⟩

/-- C5 (divergence evidence): `cancel_wait_invoice` only sets the token, and
the stream polls the receiver alone.  After cancellation the consumer still
receives a queued lookup-id, and on the drained channel the stream suspends
instead of terminating — the cancel token never reaches the stream. -/
theorem cancel_wait_does_not_stop_stream :
    ∃ w2 : PortalWallet,
      w2 = { (PortalWallet.new [] []).cancel_wait_invoice with
             channel := { queue := ["aa"], senders_closed := false,
                          receiver_closed := false } } ∧
      w2.wait_invoice_cancel_token = true ∧
      receiverStreamNext w2.channel =
        .yield "aa" { queue := [], senders_closed := false,
                      receiver_closed := false } ∧
      receiverStreamNext { queue := [], senders_closed := false,
                           receiver_closed := false } = .suspended :=
  ⟨_, rfl, rfl, rfl, rfl⟩

/-- C6 (divergence evidence): a successful `wait_any_incoming_payment` on a
fresh wallet leaves `is_wait_invoice_active` false — the source never stores
true into the flag. -/
theorem is_wait_active_false_after_wait :
    ∃ w1, (PortalWallet.new [] []).wait_any_incoming_payment = .ok w1 ∧
      w1.is_wait_invoice_active = false :=
  ⟨_, rfl, rfl⟩

/-- C7: after registering a unit, `max_order` returns the registered value
for it, and still returns the fallback 32 for any distinct unit that was
never registered. -/
theorem max_order_registered_and_fallback
    (w : PortalWallet) (u u2 : CurrencyUnit) (m : Nat)
    (h : mapGet w.supported_units u2 = none) (hne : u2 ≠ u) :
    (w.add_supported_unit u m).max_order u = m ∧
    (w.add_supported_unit u m).max_order u2 = 32 := by
  unfold PortalWallet.add_supported_unit PortalWallet.max_order mapInsert
  refine ⟨by simp [mapGet], ?_⟩
  have hfil := mapGet_filter_of_ne w.supported_units u u2 hne
  simp [mapGet, Ne.symm hne, hfil, h]

/-- Witness for C7: the spec's scenario — register USD with max order 10 on a
fresh wallet; `max_order` gives 10 for USD and 32 for EUR. -/
theorem max_order_registered_and_fallback_witness :
    mapGet (PortalWallet.new [] []).supported_units CurrencyUnit.eur = none ∧
    ((PortalWallet.new [] []).add_supported_unit .usd 10).max_order .usd = 10 ∧
    ((PortalWallet.new [] []).add_supported_unit .usd 10).max_order .eur = 32 :=
  ⟨rfl,
   (max_order_registered_and_fallback (PortalWallet.new [] []) .usd .eur 10
     rfl (by decide)).1,
   (max_order_registered_and_fallback (PortalWallet.new [] []) .usd .eur 10
     rfl (by decide)).2⟩

/-- C8: if any comma-separated pair of the configured list fails to parse,
the whole list is rejected and `supported_units` keeps its previous value. -/
theorem from_env_all_or_nothing (cfg : PortalWalletConfig)
    (units_str : List Char) (pair : List Char)
    (hmem : pair ∈ splitChar (Char.ofNat 44) units_str)
    (hbad : exceptIsOk (SupportedUnit.from_str (trimChars pair)) = false) :
    (cfg.from_env (some units_str)).supported_units = cfg.supported_units := by
  unfold PortalWalletConfig.from_env
  obtain ⟨e, he⟩ := collectResults_error_of_mem
    (fun s => SupportedUnit.from_str (trimChars s))
    (splitChar (Char.ofNat 44) units_str) pair hmem hbad
  simp only [he]

/-- Witness for C8: in "usd:10,bogus" the second pair is malformed, so a
previously configured map [(usd, 5)] stays as it was. -/
theorem from_env_all_or_nothing_witness :
    "bogus".data ∈ splitChar (Char.ofNat 44) "usd:10,bogus".data ∧
    exceptIsOk (SupportedUnit.from_str (trimChars "bogus".data)) = false ∧
    (PortalWalletConfig.from_env ⟨[(CurrencyUnit.usd, 5)]⟩
        (some "usd:10,bogus".data)).supported_units =
      [(CurrencyUnit.usd, 5)] :=
  ⟨by decide, by decide,
   from_env_all_or_nothing ⟨[(CurrencyUnit.usd, 5)]⟩ "usd:10,bogus".data
     "bogus".data (by decide) (by decide)⟩

/-- C9 counterexample: with no consumer attached and the bounded buffer
already holding 8 lookup-ids, the ninth `create_incoming_payment_request`
suspends inside `sender.send(...).await` and never completes — against the
claim that publication proceeds without blocking indefinitely and the call
still returns the new request successfully. -/
theorem create_incoming_payment_request_blocks_when_full :
    fullBufferWallet.create_incoming_payment_request 21 .msat "pay me" none
      (List.replicate 32 0) 1700000000 = none :=
  rfl

/-- C9 (amended): `create_incoming_payment_request` never errors because the
lookup-id could not be delivered: whenever the call completes it returns the
new request (with the hex payment hash as lookup-id); if the receiver was
dropped the delivery failure is only logged and the call completes with the
channel untouched; below the bounded capacity the publish enqueues the
lookup-id and the call completes; but on a full buffer with the receiver
alive the send awaits capacity and the call does not complete — with no
consumer attached it blocks indefinitely, and the message is never dropped. -/
theorem create_incoming_payment_request_delivery_tolerant
    (w : PortalWallet) (A : Nat) (unit : CurrencyUnit) (D : String)
    (e : Option Nat) (ph : List Nat) (now : Nat) :
    (∀ r, w.create_incoming_payment_request A unit D e ph now = some r →
      ∃ resp w2, r = .ok (resp, w2) ∧
        resp.request_lookup_id = hashToString ph) ∧
    (w.channel.receiver_closed = true →
      ∃ resp, w.create_incoming_payment_request A unit D e ph now =
        some (.ok (resp, w))) ∧
    (w.channel.receiver_closed = false →
      w.channel.queue.length < channelCapacity →
      ∃ resp, w.create_incoming_payment_request A unit D e ph now =
        some (.ok (resp,
          { w with channel :=
              { w.channel with
                queue := w.channel.queue ++ [hashToString ph] } }))) ∧
    (w.channel.receiver_closed = false →
      ¬ w.channel.queue.length < channelCapacity →
      w.create_incoming_payment_request A unit D e ph now = none) := by
  refine ⟨?_, ?_, ?_, ?_⟩
  · intro r hr
    rw [create_incoming_payment_request_eq] at hr
    cases hs : w.channel.send (hashToString ph) with
    | none => rw [hs] at hr; cases hr
    | some sent =>
      rw [hs] at hr
      have h2 := Option.some.inj hr
      subst h2
      exact ⟨_, _, rfl, rfl⟩
  · intro h1
    refine ⟨{ request_lookup_id := hashToString ph
              request := (create_fake_invoice A D ph now).render
              expiry := (create_fake_invoice A D ph now).expires_at }, ?_⟩
    rw [create_incoming_payment_request_eq]
    unfold Channel.send
    simp [h1]
  · intro h1 h2
    refine ⟨{ request_lookup_id := hashToString ph
              request := (create_fake_invoice A D ph now).render
              expiry := (create_fake_invoice A D ph now).expires_at }, ?_⟩
    rw [create_incoming_payment_request_eq]
    unfold Channel.send
    simp [h1, h2]
  · intro h1 h2
    rw [create_incoming_payment_request_eq]
    unfold Channel.send
    simp [h1, h2]

/-- C10: `check_incoming_payment_status` returns Paid and never fails, for
every wallet state (any settlement map and fault set) and every lookup-id. -/
theorem check_incoming_payment_status_always_paid
    (w : PortalWallet) (id : String) :
    w.check_incoming_payment_status id = .ok .paid :=
  rfl

end PortalWalletSpec
